import Mathlib

/-!
Verification of the fp-ts-remote-data library (src/src/index.ts) against its
specification. The library is a pure algebraic data type
`RemoteData<E, A> = Pending | Success<A> | Failure<E>` together with its
combinators. Each TypeScript operation is embedded as a total Lean function
on an inductive type mirroring the tagged union.
-/

/-- The three-variant tagged union `RemoteData<E, A>` from src/src/index.ts:
`Pending` (no payload), `Success<A>` (payload `success: A`),
`Failure<E>` (payload `failure: E`). -/
inductive RemoteData (E A : Type) : Type where
  | pending : RemoteData E A
  | success : A → RemoteData E A
  | failure : E → RemoteData E A
deriving Repr, DecidableEq

namespace RemoteData

variable {E A B D : Type}

/-- Guard `isPending`: true iff the tag is Pending. -/
def isPending : RemoteData E A → Bool
  | .pending => true
  | _ => false

/-- Guard `isSuccess`: true iff the tag is Success. -/
def isSuccess : RemoteData E A → Bool
  | .success _ => true
  | _ => false

/-- Guard `isFailure`: true iff the tag is Failure. -/
def isFailure : RemoteData E A → Bool
  | .failure _ => true
  | _ => false

/-- `map(f)`: Success(a) becomes Success(f(a)); Pending and Failure pass
through unchanged. -/
def map (f : A → B) : RemoteData E A → RemoteData E B
  | .success a => .success (f a)
  | .pending => .pending
  | .failure e => .failure e

/-- `apW(fa)(fab)` from the source:
`isSuccess(fab) ? (isSuccess(fa) ? success(fab.success(fa.success)) : fa) : fab`.
The function-side operand `fab` is inspected first; a non-Success `fab` is
returned without looking at `fa`. -/
def apW (fa : RemoteData E A) (fab : RemoteData E (A → B)) : RemoteData E B :=
  match fab with
  | .success f =>
    match fa with
    | .success a => .success (f a)
    | .pending => .pending
    | .failure e => .failure e
  | .pending => .pending
  | .failure e => .failure e

/-- `ap` is `apW` at a fixed failure type. -/
def ap (fa : RemoteData E A) (fab : RemoteData E (A → B)) : RemoteData E B :=
  apW fa fab

/-- `chainW(f)(ma)`: Success(a) becomes f(a); Pending and Failure pass
through. -/
def chainW (f : A → RemoteData E B) : RemoteData E A → RemoteData E B
  | .success a => f a
  | .pending => .pending
  | .failure e => .failure e

/-- `chain` is `chainW` at a fixed failure type. -/
def chain (f : A → RemoteData E B) (ma : RemoteData E A) : RemoteData E B :=
  chainW f ma

/-- `flatten = chain(identity)`. -/
def flatten (mma : RemoteData E (RemoteData E A)) : RemoteData E A :=
  chain id mma

/-- `altW(that)(fa)` from the source: `isFailure(fa) ? that() : fa`.
The lazy alternative is a thunk, modelled as a function from Unit. -/
def altW (that : Unit → RemoteData E A) (fa : RemoteData E A) : RemoteData E A :=
  match fa with
  | .failure _ => that ()
  | .pending => .pending
  | .success a => .success a

/-- `alt` is `altW` at fixed types. -/
def alt (that : Unit → RemoteData E A) (fa : RemoteData E A) : RemoteData E A :=
  altW that fa

/-- `extend(f)(wa)`: `isSuccess(wa) ? success(f(wa)) : wa` — the callback
receives the whole wrapped structure. -/
def extend (f : RemoteData E A → B) : RemoteData E A → RemoteData E B
  | .success a => .success (f (.success a))
  | .pending => .pending
  | .failure e => .failure e

/-- `duplicate = extend(identity)`. -/
def duplicate (ma : RemoteData E A) : RemoteData E (RemoteData E A) :=
  extend id ma

/-- `swap(ma)`: `isSuccess(ma) ? failure(ma.success) : isFailure(ma) ?
success(ma.failure) : ma`. -/
def swap : RemoteData E A → RemoteData A E
  | .success a => .failure a
  | .failure e => .success e
  | .pending => .pending

/-- `fold(onPending, onSuccess, onFailure)(ma)`: the universal eliminator,
applying exactly one of the three callbacks to the active variant. -/
def fold (onPending : Unit → B) (onSuccess : A → B) (onFailure : E → B) :
    RemoteData E A → B
  | .pending => onPending ()
  | .success a => onSuccess a
  | .failure e => onFailure e

/-- `exists(predicate)(ma)` from the source:
`isSuccess(ma) ? predicate(ma.success) : false`. The source name `exists`
is a reserved word in Lean, hence the trailing underscore. -/
def exists_ (predicate : A → Bool) : RemoteData E A → Bool
  | .success a => predicate a
  | .pending => false
  | .failure _ => false

end RemoteData

/-- The fp-ts `Either<E, A>` tagged union: `Left<E> | Right<A>`. -/
inductive Either (E A : Type) : Type where
  | left : E → Either E A
  | right : A → Either E A
deriving Repr, DecidableEq

namespace RemoteData

variable {E A B : Type}

/-- `fromEither(ei)`: `ei._tag === 'Left' ? failure(ei.left) :
success(ei.right)`. -/
def fromEither : Either E A → RemoteData E A
  | .left e => .failure e
  | .right a => .success a

/-- `toEither(onPending)` from the source:
`fold(() => left(onPending()), right, left)`. -/
def toEither (onPending : Unit → E) (ma : RemoteData E A) : Either E A :=
  fold (fun _ => .left (onPending ())) .right .left ma

/-- Modelled from the spec: `getEq` is referenced by the repository's tests
but its definition is not under src/; per spec section 3, the derived
equality holds iff both operands are Pending, or both are Failure with
payloads equal under the supplied E-equality, or both are Success with
payloads equal under the supplied A-equality. -/
def getEq (eqE : E → E → Bool) (eqA : A → A → Bool) :
    RemoteData E A → RemoteData E A → Bool
  | .pending, .pending => true
  | .failure e1, .failure e2 => eqE e1 e2
  | .success a1, .success a2 => eqA a1 a2
  | _, _ => false

/-- Modelled from the spec: `tryCatch` is referenced by the repository's
tests but its definition is not under src/; per spec section 4.1 it
evaluates the thunk `f` eagerly, converting a raised exception via
`onThrow` into Failure and a normal result into Success. A thunk that may
throw is modelled as a function from Unit into `Except Err A`, where
`Except.error` is a raised value and `Except.ok` a normal return. -/
def tryCatch {Err : Type} (f : Unit → Except Err A) (onThrow : Err → E) :
    RemoteData E A :=
  match f () with
  | .error err => .failure (onThrow err)
  | .ok a => .success a

end RemoteData

/-- An applicative effect as the source's `traverse` consumes it: a record
with `map` (arguments in fp-ts order: the effectful value, then the
function) and `of` (the unit). -/
structure ApplicativeOps (F : Type → Type) : Type 1 where
  map : {A B : Type} → F A → (A → B) → F B
  of : {A : Type} → A → F A

namespace RemoteData

variable {E A B : Type}

/-- `traverse(F)(f)(ta)` from the source:
`isSuccess(ta) ? F.map(f(ta.success), success) : F.of(ta)`. -/
def traverse {F : Type → Type} (Fi : ApplicativeOps F) (f : A → F B) :
    RemoteData E A → F (RemoteData E B)
  | .success a => Fi.map (f a) success
  | .pending => Fi.of .pending
  | .failure e => Fi.of (.failure e)

end RemoteData

/-- The fp-ts Option applicative instance: `map` maps over a present value,
`of` is `some`. -/
def optionApplicative : ApplicativeOps Option where
  map := fun fa f => fa.map f
  of := fun a => some a

open RemoteData

-- -------------------------------------------------------------------------
-- Claims
-- -------------------------------------------------------------------------

/-- C1: `ap` checks the function-side operand first: a non-Success `fab`
(Failure or Pending) is returned as-is with `fa` never inspected — the
equations for those cases hold definitionally with `fa` left abstract;
otherwise a non-Success `fa` is returned; otherwise the result is
`success` of the function applied to the payload. -/
theorem ap_checks_function_side_first :
    ∀ (E A B : Type) (fa : RemoteData E A) (e : E) (f : A → B) (a : A),
      ap fa (RemoteData.failure e : RemoteData E (A → B)) =
        RemoteData.failure e ∧
      ap fa (RemoteData.pending : RemoteData E (A → B)) = RemoteData.pending ∧
      ap (RemoteData.failure e : RemoteData E A) (RemoteData.success f) =
        RemoteData.failure e ∧
      ap (RemoteData.pending : RemoteData E A) (RemoteData.success f) =
        RemoteData.pending ∧
      ap (RemoteData.success a : RemoteData E A) (RemoteData.success f) =
        RemoteData.success (f a) :=
  fun _ _ _ _ _ _ _ => ⟨rfl, rfl, rfl, rfl, rfl⟩

/-- C2 counterexample: the claim says `ap` applied to a Pending
function-side operand and a Failure value-side operand returns the
Failure; on the code, `ap(failure 0)(pending)` is `pending`, which is not
`failure 0`. -/
theorem ap_failure_priority_counterexample :
    ap (RemoteData.failure 0 : RemoteData Nat Nat)
        (RemoteData.pending : RemoteData Nat (Nat → Nat)) =
      RemoteData.pending ∧
    (RemoteData.pending : RemoteData Nat Nat) ≠ RemoteData.failure 0 :=
  ⟨rfl, by decide⟩

/-- C2 amended: when the two operands of `ap` are not both Success, the
function-side operand is returned whenever it is non-Success, regardless
of the value side; Failure does not take priority over Pending. A
function-side Failure with a value-side Pending yields the Failure, but a
function-side Pending with a value-side Failure yields Pending. -/
theorem ap_returns_function_side_operand :
    ∀ (E A B : Type) (e : E),
      ap (RemoteData.pending : RemoteData E A)
          (RemoteData.failure e : RemoteData E (A → B)) =
        RemoteData.failure e ∧
      ap (RemoteData.failure e : RemoteData E A)
          (RemoteData.pending : RemoteData E (A → B)) =
        RemoteData.pending :=
  fun _ _ _ _ => ⟨rfl, rfl⟩

/-- C3: for every thunk `f` and mapping `onThrow`, if evaluating `f`
raises a value `err` then `tryCatch f onThrow` is
`failure (onThrow err)`; if it returns a value `a` normally then the
result is `success a`. -/
theorem tryCatch_spec :
    ∀ (Err E A : Type) (f : Unit → Except Err A) (onThrow : Err → E),
      (∀ err, f () = Except.error err →
        RemoteData.tryCatch f onThrow = RemoteData.failure (onThrow err)) ∧
      (∀ a, f () = Except.ok a →
        RemoteData.tryCatch f onThrow = RemoteData.success a) := by
  intro Err E A f onThrow
  constructor
  · intro err h
    simp [RemoteData.tryCatch, h]
  · intro a h
    simp [RemoteData.tryCatch, h]

/-- C3 witness: `tryCatch` at a throwing thunk and at a returning thunk. -/
theorem tryCatch_spec_witness :
    RemoteData.tryCatch (fun _ => Except.error 7) (fun n => n + 1) =
      (RemoteData.failure 8 : RemoteData Nat Nat) ∧
    RemoteData.tryCatch (fun _ => (Except.ok 5 : Except Nat Nat))
        (fun n => n + 1) =
      RemoteData.success 5 :=
  ⟨(tryCatch_spec Nat Nat Nat (fun _ => Except.error 7) (fun n => n + 1)).1
      7 rfl,
    (tryCatch_spec Nat Nat Nat (fun _ => Except.ok 5) (fun n => n + 1)).2
      5 rfl⟩

/-- C4: the equality derived by `getEq` from equalities on E and A holds
iff both operands are Pending, or both are Failure with E-equal payloads,
or both are Success with A-equal payloads; every mixed-variant pair is
unequal. -/
theorem getEq_spec :
    ∀ (E A : Type) (eqE : E → E → Bool) (eqA : A → A → Bool)
      (x y : RemoteData E A),
      getEq eqE eqA x y = true ↔
        (x = RemoteData.pending ∧ y = RemoteData.pending) ∨
        (∃ e1 e2, x = RemoteData.failure e1 ∧ y = RemoteData.failure e2 ∧
          eqE e1 e2 = true) ∨
        (∃ a1 a2, x = RemoteData.success a1 ∧ y = RemoteData.success a2 ∧
          eqA a1 a2 = true) := by
  intro E A eqE eqA x y
  cases x <;> cases y <;> simp [getEq]

/-- C5: `alt` recovers only from Failure: applied to a Failure it returns
the lazily evaluated alternative, while a Success or Pending receiver is
returned unchanged — in particular Pending is never replaced. -/
theorem alt_recovers_only_failure :
    ∀ (E A : Type) (that : Unit → RemoteData E A) (e : E) (a : A),
      alt that (RemoteData.failure e) = that () ∧
      alt that (RemoteData.success a) = RemoteData.success a ∧
      alt that (RemoteData.pending : RemoteData E A) = RemoteData.pending :=
  fun _ _ _ _ _ => ⟨rfl, rfl, rfl⟩

/-- C6: for every applicative effect, `traverse` maps `success` over the
lifted image of a Success payload and lifts a Pending or Failure
unchanged via the unit; at the Option applicative the Success case is the
Option-map of `success` over the effectful result (none when the function
rejects), and Pending and Failure come back as `some` of the unchanged
value. -/
theorem traverse_spec :
    ∀ (F : Type → Type) (Fi : ApplicativeOps F) (E A B : Type)
      (f : A → F B) (g : A → Option B) (a : A) (e : E),
      traverse Fi f (RemoteData.success a : RemoteData E A) =
        Fi.map (f a) RemoteData.success ∧
      traverse Fi f (RemoteData.pending : RemoteData E A) =
        Fi.of RemoteData.pending ∧
      traverse Fi f (RemoteData.failure e : RemoteData E A) =
        Fi.of (RemoteData.failure e) ∧
      traverse optionApplicative g (RemoteData.success a : RemoteData E A) =
        (g a).map RemoteData.success ∧
      traverse optionApplicative (fun _ : A => (none : Option B))
          (RemoteData.success a : RemoteData E A) = none ∧
      traverse optionApplicative g (RemoteData.pending : RemoteData E A) =
        some RemoteData.pending ∧
      traverse optionApplicative g (RemoteData.failure e : RemoteData E A) =
        some (RemoteData.failure e) :=
  fun _ _ _ _ _ _ _ _ _ => ⟨rfl, rfl, rfl, rfl, rfl, rfl, rfl⟩

/-- C7: round-trip through Either: `fromEither` after `toEither(onPending)`
recovers a Success or Failure unchanged, while Pending comes back as
`failure (onPending ())` because `toEither` collapses it into a
synthesized Left. -/
theorem toEither_fromEither_round_trip :
    ∀ (E A : Type) (onPending : Unit → E) (a : A) (e : E),
      fromEither (toEither onPending (RemoteData.success a : RemoteData E A)) =
        RemoteData.success a ∧
      fromEither (toEither onPending (RemoteData.failure e : RemoteData E A)) =
        RemoteData.failure e ∧
      fromEither (toEither onPending (RemoteData.pending : RemoteData E A)) =
        RemoteData.failure (onPending ()) :=
  fun _ _ _ _ _ => ⟨rfl, rfl, rfl⟩

/-- C8: `exists` applied to a Success is the predicate at the payload, and
applied to Pending or Failure is false; on a non-Success value the result
does not depend on the predicate at all, so any two predicates agree
there. -/
theorem exists_spec :
    ∀ (E A : Type) (p p1 p2 : A → Bool) (a : A) (e : E),
      RemoteData.exists_ p (RemoteData.success a : RemoteData E A) = p a ∧
      RemoteData.exists_ p (RemoteData.pending : RemoteData E A) = false ∧
      RemoteData.exists_ p (RemoteData.failure e : RemoteData E A) = false ∧
      RemoteData.exists_ p1 (RemoteData.pending : RemoteData E A) =
        RemoteData.exists_ p2 (RemoteData.pending : RemoteData E A) ∧
      RemoteData.exists_ p1 (RemoteData.failure e : RemoteData E A) =
        RemoteData.exists_ p2 (RemoteData.failure e : RemoteData E A) :=
  fun _ _ _ _ _ _ _ => ⟨rfl, rfl, rfl, rfl, rfl⟩

/-- C9: `swap` maps Success(a) to Failure(a), Failure(e) to Success(e) and
Pending to itself, and is an involution: swapping twice gives back the
original value. -/
theorem swap_involution :
    ∀ (E A : Type) (a : A) (e : E) (ma : RemoteData E A),
      swap (RemoteData.success a : RemoteData E A) = RemoteData.failure a ∧
      swap (RemoteData.failure e : RemoteData E A) = RemoteData.success e ∧
      swap (RemoteData.pending : RemoteData E A) = RemoteData.pending ∧
      swap (swap ma) = ma := by
  intro E A a e ma
  refine ⟨rfl, rfl, rfl, ?_⟩
  cases ma <;> rfl

/-- C10: `duplicate` followed by `flatten` is the identity: a Success is
wrapped whole as a nested Success and unwrapped again, while Pending and
Failure pass through both operations unchanged. -/
theorem flatten_duplicate_identity :
    ∀ (E A : Type) (a : A) (ma : RemoteData E A),
      duplicate (RemoteData.success a : RemoteData E A) =
        RemoteData.success (RemoteData.success a) ∧
      flatten (duplicate ma) = ma := by
  intro E A a ma
  refine ⟨rfl, ?_⟩
  cases ma <;> rfl
